import Mathlib

/-!
Shallow embedding of `src/apps/belt/tracking/tracking.py` (class `BeltTracking`).
Frames are modelled as lists of pixels; pixel intensities, timestamps and
thresholds are rationals.  The camera handle is modelled by a boolean
(`camera = true` iff `self._camera is not None`), and the result of
`self._camera.read()` is passed in as an `Option` frame (`none` models
`ret == False`).  Python dictionaries returned by the methods are modelled by
structures / inductives mirroring exactly the keys the code puts in them.
-/

namespace MaticBelt

/-- `class MovementType(Enum)` from tracking.py. -/
inductive MovementType where
  | NONE
  | RUNNING
  | FALL
  | WALKING
deriving DecidableEq

/-- `@dataclass class CameraSettings` from tracking.py (defaults as in the source). -/
structure CameraSettings where
  timer_interval : ℚ := 60
  movement_threshold : ℚ := 30
  fall_threshold : ℚ := 50
  running_threshold : ℚ := 40
  save_directory : String := "captures"
  resolution : ℕ × ℕ := (640, 480)
  fps : ℕ := 30
deriving DecidableEq

/-- One BGR pixel of a raw captured frame. -/
structure BGRPixel where
  b : ℚ
  g : ℚ
  r : ℚ
deriving DecidableEq

/-- `cv2.cvtColor(frame, cv2.COLOR_BGR2GRAY)`: the standard luma weights
0.299 R + 0.587 G + 0.114 B, applied per pixel (rounding to uint8 omitted). -/
def cvtColorBGR2GRAY (frame : List BGRPixel) : List ℚ :=
  frame.map (fun p => (299 / 1000) * p.r + (587 / 1000) * p.g + (114 / 1000) * p.b)

/-- `cv2.absdiff(a, b)`: pointwise absolute difference. -/
def absdiff (a b : List ℚ) : List ℚ :=
  List.zipWith (fun x y => |x - y|) a b

/-- `np.mean(xs)`: sum divided by length (0 on the empty list in this model). -/
def npMean (xs : List ℚ) : ℚ :=
  xs.sum / xs.length

/-- The movement-data dictionary built by `_detect_movement`.  The calibration
return `{"type": ..., "confidence": 0.0}` has no `"movement_value"` key, so
that field is an `Option`. -/
structure MovementData where
  type : MovementType
  confidence : ℚ
  movement_value : Option ℚ
deriving DecidableEq

/-- The full mutable state of a `BeltTracking` object (fields of `__init__`,
leading underscores dropped; `camera : Bool` stands for `_camera is not None`,
and the timer thread is outside the model). -/
structure BeltTracking where
  last_open_time : Option ℚ := none
  last_close_time : Option ℚ := none
  is_open : Bool := false
  open_duration : ℚ := 0
  total_opens : ℕ := 0
  camera_settings : CameraSettings := {}
  camera : Bool := false
  is_capturing : Bool := false
  last_frame : Option (List ℚ) := none
  movement_history : List MovementData := []
  capture_count : ℕ := 0
deriving DecidableEq

/-- The mean absolute per-pixel difference between a stored grayscale baseline
and the grayscale of a new frame (`np.mean(cv2.absdiff(last, gray))`). -/
def raw_magnitude (prev : List ℚ) (frame : List BGRPixel) : ℚ :=
  npMean (absdiff prev (cvtColorBGR2GRAY frame))

/-- `BeltTracking._detect_movement(self, frame)`: returns the movement-data
dictionary and the updated object state. -/
def detect_movement (st : BeltTracking) (frame : List BGRPixel) :
    MovementData × BeltTracking :=
  match st.last_frame with
  | none =>
      ({ type := MovementType.NONE, confidence := 0, movement_value := none },
       { st with last_frame := some (cvtColorBGR2GRAY frame) })
  | some last =>
      let gray := cvtColorBGR2GRAY frame
      let movement := npMean (absdiff last gray)
      let confidence := min (movement / st.camera_settings.movement_threshold) 1
      let movement_type :=
        if movement > st.camera_settings.fall_threshold then MovementType.FALL
        else if movement > st.camera_settings.running_threshold then MovementType.RUNNING
        else if movement > st.camera_settings.movement_threshold then MovementType.WALKING
        else MovementType.NONE
      let movement_data : MovementData :=
        { type := movement_type, confidence := confidence,
          movement_value := some movement }
      (movement_data,
       { st with last_frame := some gray,
                 movement_history := st.movement_history ++ [movement_data] })

/-- The dictionary returned by `capture_image`: either one of the two error
dictionaries or the success dictionary. -/
inductive CaptureRecord where
  | error (message : String)
  | success (filename : String) (movement : MovementData)
      (trigger : String) (timestamp : String)
deriving DecidableEq

/-- `BeltTracking.capture_image(self, trigger)`.  `readResult` models the
outcome of `self._camera.read()` (`none` for `ret == False`); `timestamp`
models `datetime.now().strftime(...)`.  Returns the record and the updated
object state. -/
def capture_image (st : BeltTracking) (readResult : Option (List BGRPixel))
    (trigger : String) (timestamp : String) : CaptureRecord × BeltTracking :=
  if st.camera = false ∨ st.is_capturing = false then
    (CaptureRecord.error "Camera not initialized or not capturing", st)
  else
    match readResult with
    | none => (CaptureRecord.error "Failed to capture frame", st)
    | some frame =>
        let md := (detect_movement st frame).1
        let st1 := (detect_movement st frame).2
        let filename := st.camera_settings.save_directory ++ "/capture_"
          ++ timestamp ++ "_" ++ trigger ++ ".jpg"
        (CaptureRecord.success filename md trigger timestamp,
         { st1 with capture_count := st1.capture_count + 1 })

/-- The dictionary returned by `track_belt_open`. -/
structure OpenEvent where
  timestamp : ℚ
  total_opens : ℕ
  is_open : Bool
deriving DecidableEq

/-- `BeltTracking.track_belt_open(self)`; `current_time` models `time.time()`. -/
def track_belt_open (st : BeltTracking) (current_time : ℚ) :
    OpenEvent × BeltTracking :=
  let st1 := { st with last_open_time := some current_time,
                       is_open := true,
                       total_opens := st.total_opens + 1 }
  ({ timestamp := current_time, total_opens := st1.total_opens,
     is_open := st1.is_open }, st1)

/-- The dictionary returned by `track_belt_close`: the error dictionary has
keys timestamp/action/error, the normal one timestamp/action/duration/is_open. -/
inductive CloseEvent where
  | error (timestamp : ℚ) (message : String)
  | closed (timestamp : ℚ) (duration : ℚ) (is_open : Bool)
deriving DecidableEq

/-- The `"duration"` key of a close event, when present. -/
def CloseEvent.durationOf : CloseEvent → Option ℚ
  | CloseEvent.error _ _ => none
  | CloseEvent.closed _ d _ => some d

/-- `BeltTracking.track_belt_close(self)`; `current_time` models `time.time()`. -/
def track_belt_close (st : BeltTracking) (current_time : ℚ) :
    CloseEvent × BeltTracking :=
  if st.is_open = false then
    (CloseEvent.error current_time "Belt was not open", st)
  else
    let st1 := { st with last_close_time := some current_time,
                         is_open := false }
    let st2 :=
      match st.last_open_time with
      | some t => { st1 with open_duration := current_time - t }
      | none => st1
    (CloseEvent.closed current_time st2.open_duration false, st2)

/-- The dictionary returned by `get_tracking_stats`. -/
structure TrackingStats where
  is_open : Bool
  last_open_time : Option ℚ
  last_close_time : Option ℚ
  total_opens : ℕ
  current_open_duration : ℚ
deriving DecidableEq

/-- `BeltTracking.get_tracking_stats(self)`; `now` models `time.time()`.
The Python condition `self._is_open and self._last_open_time` tests the
truthiness of the optional float, so `None` and `0.0` both select `0.0`. -/
def get_tracking_stats (st : BeltTracking) (now : ℚ) : TrackingStats :=
  { is_open := st.is_open
    last_open_time := st.last_open_time
    last_close_time := st.last_close_time
    total_opens := st.total_opens
    current_open_duration :=
      match st.last_open_time with
      | some t => if st.is_open = true ∧ t ≠ 0 then now - t else 0
      | none => 0 }

/-- The dictionary returned by `get_camera_stats`. -/
structure CameraStats where
  is_capturing : Bool
  capture_count : ℕ
  settings : CameraSettings
  recent_movements : List MovementData
deriving DecidableEq

/-- `BeltTracking.get_camera_stats(self)`: `self._movement_history[-10:]`
is the suffix of the last (up to) 10 entries. -/
def get_camera_stats (st : BeltTracking) : CameraStats :=
  { is_capturing := st.is_capturing
    capture_count := st.capture_count
    settings := st.camera_settings
    recent_movements :=
      if st.movement_history.isEmpty then []
      else st.movement_history.drop (st.movement_history.length - 10) }

/-- A sequence of successful manual captures folded over the state. -/
def run_captures (st : BeltTracking) (frames : List (List BGRPixel)) :
    BeltTracking :=
  frames.foldl (fun s f => (capture_image s (some f) "manual" "ts").2) st

/-- A session state with the camera started and a stored baseline frame. -/
def demo_state : BeltTracking :=
  { camera := true, is_capturing := true, last_frame := some [0] }

/-- C4 counterexample: on the first call (no stored baseline), the dictionary
returned by `_detect_movement` is not the sample {None, confidence 0.0,
raw_magnitude 0.0} the claim describes: it carries no `movement_value` key at
all (modelled as `none`, not `some 0`). -/
theorem first_call_not_zero_magnitude :
    (detect_movement ({} : BeltTracking) [⟨0, 0, 0⟩]).1
      ≠ { type := MovementType.NONE, confidence := 0,
          movement_value := some 0 } := by
  decide

/-- C4 (amended): when no baseline frame is stored, `_detect_movement` returns
classification `NONE` with confidence 0.0 and no `movement_value` field, and
the only state change is storing the grayscale of the current frame as the new
baseline — for any settings. -/
theorem first_call_calibrates (st : BeltTracking) (frame : List BGRPixel)
    (h : st.last_frame = none) :
    (detect_movement st frame).1
      = { type := MovementType.NONE, confidence := 0, movement_value := none }
    ∧ (detect_movement st frame).2
      = { st with last_frame := some (cvtColorBGR2GRAY frame) } := by
  simp [detect_movement, h]

/-- Witness for `first_call_calibrates` at a concrete fresh state. -/
theorem first_call_calibrates_witness :
    (detect_movement ({} : BeltTracking) [⟨7, 7, 7⟩]).1
      = { type := MovementType.NONE, confidence := 0, movement_value := none } :=
  (first_call_calibrates {} [⟨7, 7, 7⟩] rfl).1

/-- C5: when the camera is started and capturing but the frame pull fails
(`ret == False`), `capture_image` returns the error record with the reason
"Failed to capture frame" and leaves the stored baseline, the movement history
and `capture_count` unchanged. -/
theorem failed_pull_leaves_state (st : BeltTracking)
    (trigger timestamp : String)
    (hcam : st.camera = true) (hcap : st.is_capturing = true) :
    (capture_image st none trigger timestamp).1
      = CaptureRecord.error "Failed to capture frame"
    ∧ (capture_image st none trigger timestamp).2.last_frame = st.last_frame
    ∧ (capture_image st none trigger timestamp).2.movement_history
        = st.movement_history
    ∧ (capture_image st none trigger timestamp).2.capture_count
        = st.capture_count := by
  simp [capture_image, hcam, hcap]

/-- Witness for `failed_pull_leaves_state` at a concrete started session. -/
theorem failed_pull_leaves_state_witness :
    (capture_image demo_state none "manual" "ts").2.movement_history
      = demo_state.movement_history :=
  (failed_pull_leaves_state demo_state "manual" "ts" rfl rfl).2.2.1

/-- C6: `track_belt_close` on a state in which the belt is not open returns
the error-flagged event "Belt was not open" and leaves the whole tracker state
(hence `is_open`, `total_opens`, `last_open_time`, `last_close_time` and the
stored duration) unchanged. -/
theorem close_when_not_open (st : BeltTracking) (t : ℚ)
    (h : st.is_open = false) :
    (track_belt_close st t).1 = CloseEvent.error t "Belt was not open"
    ∧ (track_belt_close st t).2 = st := by
  simp [track_belt_close, h]

/-- Witness for `close_when_not_open` at the freshly constructed state. -/
theorem close_when_not_open_witness :
    (track_belt_close ({} : BeltTracking) 5).2 = ({} : BeltTracking) :=
  (close_when_not_open {} 5 rfl).2

/-- C9: when the camera has not been started (`_camera is None`) or capturing
is off, `capture_image` returns the error record and leaves the whole session
state (hence `capture_count`, the baseline frame and the movement history)
unchanged. -/
theorem capture_without_camera (st : BeltTracking)
    (readResult : Option (List BGRPixel)) (trigger timestamp : String)
    (h : st.camera = false ∨ st.is_capturing = false) :
    (capture_image st readResult trigger timestamp).1
      = CaptureRecord.error "Camera not initialized or not capturing"
    ∧ (capture_image st readResult trigger timestamp).2 = st := by
  simp [capture_image, h]

/-- Witness for `capture_without_camera` at the freshly constructed state. -/
theorem capture_without_camera_witness :
    (capture_image ({} : BeltTracking) none "manual" "ts").2
      = ({} : BeltTracking) :=
  (capture_without_camera {} none "manual" "ts" (Or.inl rfl)).2

/-- C7: for any starting state, open at `t1` then close at `t2` reports
duration `t2 − t1`, and a subsequent open at `t3` then close at `t4` reports
duration `t4 − t3`, independent of the first pair. -/
theorem open_close_durations (st0 : BeltTracking) (t1 t2 t3 t4 : ℚ) :
    (track_belt_close (track_belt_open st0 t1).2 t2).1.durationOf
      = some (t2 - t1)
    ∧ (track_belt_close
        (track_belt_open
          (track_belt_close (track_belt_open st0 t1).2 t2).2 t3).2 t4).1.durationOf
      = some (t4 - t3) := by
  simp [track_belt_open, track_belt_close, CloseEvent.durationOf]

/-- C10: whenever the belt is not open, `get_tracking_stats` reports
`current_open_duration = 0.0` (regardless of any duration stored by a previous
close), and a nonzero `current_open_duration` is reported only while the belt
is open. -/
theorem closed_duration_zero (st : BeltTracking) (now : ℚ) :
    (st.is_open = false →
      (get_tracking_stats st now).current_open_duration = 0)
    ∧ ((get_tracking_stats st now).current_open_duration ≠ 0 →
      st.is_open = true) := by
  constructor
  · intro h
    cases hlo : st.last_open_time <;> simp [get_tracking_stats, hlo, h]
  · intro hne
    cases hopen : st.is_open with
    | true => rfl
    | false =>
        refine absurd ?_ hne
        cases hlo : st.last_open_time <;> simp [get_tracking_stats, hlo, hopen]

/-- Witness for `closed_duration_zero`: a state that recorded a positive
duration 2 at a previous close still reports `current_open_duration = 0`. -/
theorem closed_duration_zero_witness :
    (get_tracking_stats
      { last_open_time := some 1, last_close_time := some 3,
        is_open := false, open_duration := 2, total_opens := 1 }
      5).current_open_duration = 0 :=
  (closed_duration_zero
    { last_open_time := some 1, last_close_time := some 3,
      is_open := false, open_duration := 2, total_opens := 1 } 5).1 rfl

/-- C1: with a stored baseline, for the mean absolute per-pixel difference `m`
between baseline and current frame, classification is FALL iff
`m > fall_threshold`; else RUNNING iff `m > running_threshold`; else WALKING
iff `m > movement_threshold`; else NONE — given
`movement_threshold ≤ running_threshold ≤ fall_threshold`. -/
theorem classify_thresholds (st : BeltTracking) (prev : List ℚ)
    (frame : List BGRPixel) (m : ℚ)
    (hprev : st.last_frame = some prev)
    (hm : m = raw_magnitude prev frame)
    (h1 : st.camera_settings.movement_threshold
            ≤ st.camera_settings.running_threshold)
    (h2 : st.camera_settings.running_threshold
            ≤ st.camera_settings.fall_threshold) :
    ((detect_movement st frame).1.type = MovementType.FALL ↔
        m > st.camera_settings.fall_threshold)
    ∧ (m ≤ st.camera_settings.fall_threshold →
        ((detect_movement st frame).1.type = MovementType.RUNNING ↔
          m > st.camera_settings.running_threshold))
    ∧ (m ≤ st.camera_settings.running_threshold →
        ((detect_movement st frame).1.type = MovementType.WALKING ↔
          m > st.camera_settings.movement_threshold))
    ∧ (m ≤ st.camera_settings.movement_threshold →
        (detect_movement st frame).1.type = MovementType.NONE) := by
  subst hm
  simp only [detect_movement, hprev, raw_magnitude]
  refine ⟨?_, fun hfa => ?_, fun hra => ?_, fun hma => ?_⟩ <;>
    split_ifs with h h2 h3 <;> simp_all <;> linarith

/-- The magnitude of the concrete witness frames: a uniform value-45 BGR pixel
against a zero baseline has mean absolute difference 45. -/
theorem demo_magnitude : raw_magnitude [0] [⟨45, 45, 45⟩] = 45 := by
  norm_num [raw_magnitude, npMean, absdiff, cvtColorBGR2GRAY]

/-- Witness for `classify_thresholds`: the spec example — default thresholds
30/40/50 and magnitude 45 classify as RUNNING. -/
theorem classify_thresholds_witness :
    (detect_movement demo_state [⟨45, 45, 45⟩]).1.type = MovementType.RUNNING := by
  have h := classify_thresholds demo_state [0] [⟨45, 45, 45⟩]
      (raw_magnitude [0] [⟨45, 45, 45⟩]) rfl rfl
      (by norm_num [demo_state]) (by norm_num [demo_state])
  exact (h.2.1 (by rw [demo_magnitude]; norm_num [demo_state])).mpr
    (by rw [demo_magnitude]; norm_num [demo_state])

/-- C3: with a stored baseline and positive movement threshold, confidence
equals `min(raw_magnitude / movement_threshold, 1.0)`; it is monotonically
non-decreasing in the raw magnitude and equals exactly 1.0 whenever the raw
magnitude reaches the movement threshold. -/
theorem confidence_saturating_min (st : BeltTracking) (prev : List ℚ)
    (f1 f2 : List BGRPixel)
    (hprev : st.last_frame = some prev)
    (ht : 0 < st.camera_settings.movement_threshold) :
    (detect_movement st f1).1.confidence
        = min (raw_magnitude prev f1 / st.camera_settings.movement_threshold) 1
    ∧ (raw_magnitude prev f1 ≤ raw_magnitude prev f2 →
        (detect_movement st f1).1.confidence
          ≤ (detect_movement st f2).1.confidence)
    ∧ (st.camera_settings.movement_threshold ≤ raw_magnitude prev f1 →
        (detect_movement st f1).1.confidence = 1) := by
  have hconf : ∀ f : List BGRPixel, (detect_movement st f).1.confidence
      = min (raw_magnitude prev f / st.camera_settings.movement_threshold) 1 := by
    intro f
    simp [detect_movement, hprev, raw_magnitude]
  refine ⟨hconf f1, ?_, ?_⟩
  · intro hle
    rw [hconf f1, hconf f2]
    exact min_le_min ((div_le_div_iff_of_pos_right ht).mpr hle) le_rfl
  · intro hge
    rw [hconf f1]
    exact min_eq_right ((one_le_div ht).mpr hge)

/-- Witness for `confidence_saturating_min`: magnitude 45 against the default
threshold 30 saturates the confidence at exactly 1. -/
theorem confidence_saturating_min_witness :
    (detect_movement demo_state [⟨45, 45, 45⟩]).1.confidence = 1 :=
  (confidence_saturating_min demo_state [0] [⟨45, 45, 45⟩] [⟨45, 45, 45⟩]
    rfl (by norm_num [demo_state])).2.2
    (by rw [demo_magnitude]; norm_num [demo_state])

/-- Successful captures with a stored baseline each grow the movement history
by exactly one entry (so the history is unbounded). -/
theorem run_captures_length (frames : List (List BGRPixel)) :
    ∀ (st : BeltTracking) (prev : List ℚ), st.camera = true →
    st.is_capturing = true → st.last_frame = some prev →
    (run_captures st frames).movement_history.length
      = st.movement_history.length + frames.length := by
  induction frames with
  | nil =>
      intro st prev _ _ _
      simp [run_captures]
  | cons f fs ih =>
      intro st prev hcam hcap hprev
      have hstep : (capture_image st (some f) "manual" "ts").2
          = { st with last_frame := some (cvtColorBGR2GRAY f),
                      movement_history :=
                        st.movement_history ++ [(detect_movement st f).1],
                      capture_count := st.capture_count + 1 } := by
        simp [capture_image, hcam, hcap, detect_movement, hprev]
      have hrec := ih ((capture_image st (some f) "manual" "ts").2)
          (cvtColorBGR2GRAY f) (by simp [hstep, hcam]) (by simp [hstep, hcap])
          (by simp [hstep])
      calc (run_captures st (f :: fs)).movement_history.length
          = (run_captures ((capture_image st (some f) "manual" "ts").2)
              fs).movement_history.length := rfl
        _ = st.movement_history.length + (f :: fs).length := by
            rw [hrec, hstep]
            simp
            omega

/-- Eleven identical one-pixel frames fed to the capture loop. -/
def eleven_frames : List (List BGRPixel) := List.replicate 11 [⟨0, 0, 0⟩]

/-- C2 counterexample: starting from a calibrated session, 11 further
successful captures leave 11 entries in the movement history — the history is
never trimmed to 10. -/
theorem movement_history_exceeds_cap :
    ¬ ((run_captures demo_state eleven_frames).movement_history.length ≤ 10) := by
  have h := run_captures_length eleven_frames demo_state [0] rfl rfl rfl
  have h2 : demo_state.movement_history.length + eleven_frames.length = 11 := rfl
  omega

/-- C2 (amended): each successful capture with a stored baseline appends one
entry at the back of the (unbounded) movement history; the `recent_movements`
view reported by `get_camera_stats` never holds more than 10 entries and is a
suffix of the history, so it is the older entries that it excludes. -/
theorem movement_history_recent_view_capped (st : BeltTracking)
    (frame : List BGRPixel) (prev : List ℚ) (trigger timestamp : String)
    (hcam : st.camera = true) (hcap : st.is_capturing = true)
    (hprev : st.last_frame = some prev) :
    (capture_image st (some frame) trigger timestamp).2.movement_history
      = st.movement_history ++ [(detect_movement st frame).1]
    ∧ (get_camera_stats st).recent_movements.length ≤ 10
    ∧ (get_camera_stats st).recent_movements <:+ st.movement_history := by
  refine ⟨?_, ?_, ?_⟩
  · simp [capture_image, hcam, hcap, detect_movement, hprev]
  · by_cases he : st.movement_history.isEmpty
    · simp [get_camera_stats, he]
    · simp [get_camera_stats, he, List.length_drop]
      omega
  · by_cases he : st.movement_history.isEmpty <;> simp [get_camera_stats, he]
    exact List.drop_suffix _ _

/-- Witness for `movement_history_recent_view_capped` at a concrete calibrated
session. -/
theorem movement_history_recent_view_capped_witness :
    (capture_image demo_state (some [⟨45, 45, 45⟩]) "manual" "ts").2.movement_history
      = demo_state.movement_history
          ++ [(detect_movement demo_state [⟨45, 45, 45⟩]).1] :=
  (movement_history_recent_view_capped demo_state [⟨45, 45, 45⟩] [0]
    "manual" "ts" rfl rfl rfl).1

/-- C8 counterexample: `_detect_movement` is not side-effect free — on a state
with a stored baseline it appends to the movement history, so the resulting
session state differs from the input state. -/
theorem detect_movement_mutates_state :
    (detect_movement demo_state [⟨0, 0, 0⟩]).2 ≠ demo_state := by
  intro h
  have hlen := congrArg (fun s => s.movement_history.length) h
  simp [detect_movement, demo_state] at hlen

/-- C8 (amended): the returned movement sample is a pure function of the
stored baseline, the current frame and the settings (it does not depend on any
other session state), and the only state `_detect_movement` modifies is the
baseline (set to the current gray frame) and the movement history (the sample
appended at the back). -/
theorem detect_movement_output_pure (st st2 : BeltTracking)
    (frame : List BGRPixel) (prev : List ℚ)
    (h : st.last_frame = some prev) (h2 : st2.last_frame = some prev)
    (hs : st.camera_settings = st2.camera_settings) :
    (detect_movement st frame).1 = (detect_movement st2 frame).1
    ∧ (detect_movement st frame).2
      = { st with last_frame := some (cvtColorBGR2GRAY frame),
                  movement_history :=
                    st.movement_history ++ [(detect_movement st frame).1] } := by
  constructor
  · simp [detect_movement, h, h2, hs]
  · simp [detect_movement, h]

/-- A second session state sharing `demo_state`'s baseline and settings but
differing in every other mutable field. -/
def demo_state_b : BeltTracking :=
  { camera := false, is_capturing := false, last_frame := some [0],
    total_opens := 3, is_open := true, open_duration := 7, capture_count := 9 }

/-- Witness for `detect_movement_output_pure`: two states differing in all
other fields produce the same movement sample. -/
theorem detect_movement_output_pure_witness :
    (detect_movement demo_state [⟨45, 45, 45⟩]).1
      = (detect_movement demo_state_b [⟨45, 45, 45⟩]).1 :=
  (detect_movement_output_pure demo_state demo_state_b [⟨45, 45, 45⟩] [0]
    rfl rfl rfl).1

end MaticBelt
